import Mathlib

/-!
Verification of the NodeMLX thermal tracker core (ThermalTracker,
TrackedBlob, Blob) against its natural-language specification.

The C++ sources are shallowly embedded: `float` values are modelled as `ℚ`,
non-negative `int` counters as `ℕ`, general `int` values as `ℤ`, fixed-size
arrays as functions out of `Fin n`, and the Arduino clock `millis()` as an
explicit parameter.  Static members (the scoring penalties and
`frame_width`) are gathered into a `Params` record that is passed to the
scoring functions, mirroring the process-wide mutable statics of the source.
-/

namespace NodeMLX

/-- `FRAME_WIDTH` from ThermalTracker.h. -/
def FRAME_WIDTH : ℕ := 16

/-- `FRAME_HEIGHT` from ThermalTracker.h. -/
def FRAME_HEIGHT : ℕ := 4

/-- `MAX_BLOBS` from ThermalTracker.h. -/
def MAX_BLOBS : ℕ := 8

/-- `UNCHANGED_FRAME_DELAY` from ThermalTracker.h (value 50). -/
def UNCHANGED_FRAME_DELAY : ℕ := 50

/-- Direction constants from `enum directions`. -/
def LEFT : ℤ := 0

/-- `RIGHT = 1` from `enum directions`. -/
def RIGHT : ℤ := 1

/-- `UP = 2` from `enum directions`. -/
def UP : ℤ := 2

/-- `DOWN = 3` from `enum directions`. -/
def DOWN : ℤ := 3

/-- `NO_DIRECTION = 4` from `enum directions`. -/
def NO_DIRECTION : ℤ := 4

/-- The static scoring weights of `TrackedBlob` (static float members in the
source, set once by the `ThermalTracker` constructor) together with the
static `frame_width`. -/
structure Params where
  position_penalty : ℚ
  area_penalty : ℚ
  aspect_ratio_penalty : ℚ
  temperature_penalty : ℚ
  direction_penalty : ℚ
  dead_frame_penalty : ℚ
  frame_width : ℤ
deriving DecidableEq

/-- The default configuration installed by the `ThermalTracker` constructor
(DEFAULT_* constants in ThermalTracker.h); `frame_width` keeps its static
initialiser 16. -/
def defaultParams : Params :=
  { position_penalty := 2
    area_penalty := 5
    aspect_ratio_penalty := 10
    temperature_penalty := 10
    direction_penalty := 50
    dead_frame_penalty := 400 / 4
    frame_width := 16 }

/-- The aggregate fields of `Blob` (Blob.h).  `width`, `height` and
`num_pixels` are C `int`s that only ever hold non-negative pixel counts and
extents, modelled as `ℕ`. -/
structure Blob where
  min_x : ℤ
  min_y : ℤ
  max_x : ℤ
  max_y : ℤ
  centroid_x : ℚ
  centroid_y : ℚ
  aspect_ratio : ℚ
  average_temperature : ℚ
  width : ℕ
  height : ℕ
  num_pixels : ℕ
  is_assigned : Bool
deriving DecidableEq

namespace Blob

/-- Modelled from the spec: `Blob::clear` has no definition under src/ (only
its declaration and doc comment in Blob.h); the spec says "clear(): resets to
inactive (num_pixels=0, everything zeroed)". -/
def clear : Blob :=
  { min_x := 0, min_y := 0, max_x := 0, max_y := 0
    centroid_x := 0, centroid_y := 0
    aspect_ratio := 0, average_temperature := 0
    width := 0, height := 0, num_pixels := 0
    is_assigned := false }

/-- Modelled from the spec: `Blob::is_active` has no definition under src/;
Blob.h documents "A blob must have at least one pixel to be considered
active" and the spec says a blob is active iff `num_pixels > 0`. -/
def is_active (b : Blob) : Bool := 0 < b.num_pixels

/-- Modelled from the spec: `Blob::set_assigned` has no definition under
src/; per Blob.h it sets the assigned flag. -/
def set_assigned (b : Blob) : Blob := { b with is_assigned := true }

/-- Modelled from the spec: `Blob::clear_assigned` has no definition under
src/; per Blob.h it clears the assigned flag. -/
def clear_assigned (b : Blob) : Blob := { b with is_assigned := false }

/-- `Blob::get_size` returns `num_pixels` (per the Blob.h contract). -/
def get_size (b : Blob) : ℕ := b.num_pixels

end Blob

/-- The fields of `TrackedBlob` (TrackedBlob.h).  The per-pair difference
component members (`position_difference`, …, `edge_penalty`) that
`get_difference` stores on the object are modelled by the returned
`DifferenceRecord` below; the running-average difference fields are not
needed by any claim and their updates (`update_differences`) are not
modelled.  `times_updated`, `num_dead_frames` and the `max_*` fields are C
`int`s that only ever hold non-negative counts, modelled as `ℕ`. -/
structure TrackedBlob where
  blob : Blob
  predicted_position_x : ℚ
  predicted_position_y : ℚ
  travel_x : ℚ
  travel_y : ℚ
  total_travel_x : ℚ
  total_travel_y : ℚ
  start_pos_x : ℚ
  start_pos_y : ℚ
  start_time : ℕ
  event_duration : ℤ
  has_updated : Bool
  times_updated : ℕ
  average_difference : ℚ
  max_difference : ℚ
  max_size : ℕ
  max_width : ℕ
  max_height : ℕ
  num_dead_frames : ℕ
  max_num_dead_frames : ℕ
  id : ℕ
deriving DecidableEq

namespace TrackedBlob

/-- `TrackedBlob::clear` (TrackedBlob.cpp).  It zeroes the listed fields and
resets the updated status; `id`, `times_updated`, `start_pos`, `start_time`
and `event_duration` are NOT touched by the source and keep their values. -/
def clear (tb : TrackedBlob) : TrackedBlob :=
  { tb with
    blob := Blob.clear
    predicted_position_x := -1
    predicted_position_y := -1
    travel_x := 0
    travel_y := 0
    total_travel_x := 0
    total_travel_y := 0
    max_size := 0
    max_difference := 0
    average_difference := 0
    max_width := 0
    max_height := 0
    num_dead_frames := 0
    max_num_dead_frames := 0
    has_updated := false }

/-- A tracked blob as produced by the `TrackedBlob` constructor, which just
calls `clear()`; the fields `clear` leaves alone are uninitialised in C and
modelled as zero here. -/
def init : TrackedBlob :=
  TrackedBlob.clear
    { blob := Blob.clear
      predicted_position_x := 0, predicted_position_y := 0
      travel_x := 0, travel_y := 0
      total_travel_x := 0, total_travel_y := 0
      start_pos_x := 0, start_pos_y := 0
      start_time := 0, event_duration := 0
      has_updated := false, times_updated := 0
      average_difference := 0, max_difference := 0
      max_size := 0, max_width := 0, max_height := 0
      num_dead_frames := 0, max_num_dead_frames := 0
      id := 0 }

/-- `TrackedBlob::copy_blob`: copies every aggregate field of the blob
snapshot except the private `_is_assigned` flag. -/
def copy_blob (tb : TrackedBlob) (b : Blob) : TrackedBlob :=
  { tb with blob := { b with is_assigned := tb.blob.is_assigned } }

/-- `TrackedBlob::is_active` returns `_blob.is_active()`. -/
def is_active (tb : TrackedBlob) : Bool := tb.blob.is_active

/-- `TrackedBlob::reset_updated_status`. -/
def reset_updated_status (tb : TrackedBlob) : TrackedBlob :=
  { tb with has_updated := false }

/-- `TrackedBlob::set(Blob)` (TrackedBlob.cpp): clear, absorb the blob, and
seed the tracking fields.  `millis()` is passed in as `now`. -/
def set (tb : TrackedBlob) (b : Blob) (now : ℕ) : TrackedBlob :=
  let t := (tb.clear).copy_blob b
  { t with
    has_updated := true
    start_pos_x := b.centroid_x
    start_pos_y := b.centroid_y
    times_updated := 0
    max_size := b.get_size
    start_time := now
    max_width := b.width
    max_height := b.height }

/-- `TrackedBlob::set(Blob, unsigned int)`: stores the id then calls
`set(Blob)` (which does not touch `id`). -/
def setWithId (tb : TrackedBlob) (b : Blob) (i : ℕ) (now : ℕ) : TrackedBlob :=
  ({ tb with id := i } : TrackedBlob).set b now

/-- `TrackedBlob::copy`: overwrites every modelled field of the destination
with the source's, via `copy_blob` (so the destination's private
`_is_assigned` snapshot flag survives). -/
def copy (dst src : TrackedBlob) : TrackedBlob :=
  { src with blob := { src.blob with is_assigned := dst.blob.is_assigned } }

/-- `TrackedBlob::get_travel`. -/
def get_travel (tb : TrackedBlob) (axis : ℤ) : ℚ :=
  if axis = 1 then tb.travel_x else tb.travel_y

/-- `TrackedBlob::is_touching_side` (TrackedBlob.cpp).  `_blob.width / 2`
is C integer division on an `int` extent. -/
def is_touching_side (tb : TrackedBlob) : Bool :=
  if tb.blob.centroid_x - ((tb.blob.width / 2 : ℕ) : ℚ) ≤ 1 then true
  else if tb.blob.centroid_x + ((tb.blob.width / 2 : ℕ) : ℚ) ≤ ((16 : ℚ) - 1) then true
  else false

/-- `TrackedBlob::get_edge_penalty` (TrackedBlob.cpp).  `frame_width / 2`
is C integer division of the static `int frame_width = 16`, so 8. -/
def get_edge_penalty (tb : TrackedBlob) (position : ℚ) : ℚ :=
  if tb.is_touching_side then
    1 - |((16 / 2 : ℤ) : ℚ) - position| / ((16 / 2 : ℤ) : ℚ)
  else 1

/-- Truncation of a rational toward zero (`Int.tdiv` rounds toward zero,
so on the reduced fraction it is exactly truncation): the C `float` → `int`
conversion used for `latest_direction` in
`calculate_direction_difference`. -/
def truncToInt (q : ℚ) : ℤ := Int.tdiv q.num (q.den : ℤ)

/-- `TrackedBlob::calculate_direction_difference` (TrackedBlob.cpp).
The source condition is
`!is_touching_side() && times_updated > 1 && (latest_direction >= 0) != (travel >= 0)`
where `travel` is the `float travel[2]` array member: it decays to a
non-null pointer, so `travel >= 0` evaluates to `true`; the comparison is
therefore modelled as the constant `true`. -/
def calculate_direction_difference (p : Params) (tb : TrackedBlob) (_other : Blob) : ℚ :=
  let latest_direction : ℤ := truncToInt (tb.predicted_position_x - tb.blob.centroid_x)
  if (!tb.is_touching_side) && decide (1 < tb.times_updated)
      && (decide (0 ≤ latest_direction) != true) then
    p.direction_penalty
  else 0

/-- `TrackedBlob::calculate_position_difference` (TrackedBlob.cpp); the
member `edge_penalty` set by `get_difference` is passed as `ep`. -/
def calculate_position_difference (p : Params) (ep : ℚ) (tb : TrackedBlob) (other : Blob) : ℚ :=
  (if 0 ≤ tb.predicted_position_x ∧ 0 ≤ tb.predicted_position_y then
    |tb.predicted_position_x - other.centroid_x| * p.position_penalty
      + |tb.predicted_position_y - other.centroid_y| * p.position_penalty
  else
    |tb.blob.centroid_x - other.centroid_x| * p.position_penalty
      + |tb.blob.centroid_y - other.centroid_y| * p.position_penalty) * ep

/-- `TrackedBlob::calculate_area_difference` (TrackedBlob.cpp): the sizes
are subtracted as C `int`s before the float `absolute`. -/
def calculate_area_difference (p : Params) (ep : ℚ) (tb : TrackedBlob) (other : Blob) : ℚ :=
  |(tb.blob.get_size : ℚ) - (other.get_size : ℚ)| * p.area_penalty * ep

/-- `TrackedBlob::calculate_temperature_difference` (TrackedBlob.cpp): no
edge-penalty factor. -/
def calculate_temperature_difference (p : Params) (tb : TrackedBlob) (other : Blob) : ℚ :=
  |tb.blob.average_temperature - other.average_temperature| * p.temperature_penalty

/-- `TrackedBlob::calculate_aspect_ratio_difference` (TrackedBlob.cpp). -/
def calculate_aspect_ratio_difference (p : Params) (ep : ℚ) (tb : TrackedBlob) (other : Blob) : ℚ :=
  |tb.blob.aspect_ratio - other.aspect_ratio| * p.aspect_ratio_penalty * ep

/-- `TrackedBlob::calculate_dead_frame_difference` (TrackedBlob.cpp). -/
def calculate_dead_frame_difference (p : Params) (tb : TrackedBlob) : ℚ :=
  (tb.num_dead_frames : ℚ) * p.dead_frame_penalty

/-- The difference components that `TrackedBlob::get_difference` stores into
the member fields of the tracked blob, plus the returned total. -/
structure DifferenceRecord where
  edge_penalty : ℚ
  position_difference : ℚ
  area_difference : ℚ
  aspect_ratio_difference : ℚ
  temperature_difference : ℚ
  direction_difference : ℚ
  dead_frame_difference : ℚ
  total : ℚ
deriving DecidableEq

/-- `TrackedBlob::get_difference` (TrackedBlob.cpp) as a record of the
stored members and the returned `difference_factor`: the components are
computed in source order (edge penalty first, from the candidate's
centroid x), and the total sums the position, area, aspect-ratio,
temperature and direction components only. -/
def get_difference_record (p : Params) (tb : TrackedBlob) (other : Blob) : DifferenceRecord :=
  let ep := tb.get_edge_penalty other.centroid_x
  let pos := calculate_position_difference p ep tb other
  let area := calculate_area_difference p ep tb other
  let ar := calculate_aspect_ratio_difference p ep tb other
  let temp := calculate_temperature_difference p tb other
  let dir := calculate_direction_difference p tb other
  let dead := calculate_dead_frame_difference p tb
  { edge_penalty := ep
    position_difference := pos
    area_difference := area
    aspect_ratio_difference := ar
    temperature_difference := temp
    direction_difference := dir
    dead_frame_difference := dead
    total := pos + area + ar + temp + dir }

/-- The value returned by `TrackedBlob::get_difference`. -/
def get_difference (p : Params) (tb : TrackedBlob) (other : Blob) : ℚ :=
  (get_difference_record p tb other).total

end TrackedBlob

/-! ### Movement counters (ThermalTracker.cpp lines 632-714) -/

/-- The movement-counter portion of the `ThermalTracker` state: the five
`long movements[5]` counters and the `movement_changed_since_last_check`
flag. -/
structure MovState where
  movements : Fin 5 → ℤ
  movement_changed_since_last_check : Bool

/-- The Arduino `constrain(direction, 0, 4)` clamp used by `add_movement`,
packaged as an in-range index. -/
def clampDir (direction : ℤ) : Fin 5 :=
  ⟨(min (max direction 0) 4).toNat, by omega⟩

/-- `ThermalTracker::add_movement`: clamp the direction, bump its counter
and raise the changed flag. -/
def add_movement (s : MovState) (direction : ℤ) : MovState :=
  { movements := Function.update s.movements (clampDir direction)
      (s.movements (clampDir direction) + 1)
    movement_changed_since_last_check := true }

/-- `ThermalTracker::reset_movements`: zero the five counters.  The source
does not touch `movement_changed_since_last_check`. -/
def reset_movements (s : MovState) : MovState :=
  { s with movements := fun _ => 0 }

/-- `ThermalTracker::has_new_movements`. -/
def has_new_movements (s : MovState) : Bool :=
  s.movement_changed_since_last_check

/-- `ThermalTracker::get_movements`: copies the counters out and clears the
changed flag (returned state). -/
def get_movements (s : MovState) : (Fin 5 → ℤ) × MovState :=
  (s.movements, { s with movement_changed_since_last_check := false })

/-- The directions registered by `ThermalTracker::process_blob_movements`
for a dying track, in source order: horizontal axis first (LEFT when
`travel_x < 0`, otherwise RIGHT), then vertical (UP when `travel_y > 0`,
otherwise DOWN), then NO_DIRECTION when neither axis exceeded the
threshold. -/
def process_blob_movement_directions (thr : ℚ) (tb : TrackedBlob) : List ℤ :=
  (if thr < |tb.travel_x| then [if tb.travel_x < 0 then LEFT else RIGHT] else [])
    ++ (if thr < |tb.travel_y| then [if 0 < tb.travel_y then UP else DOWN] else [])
    ++ (if thr < |tb.travel_x| ∨ thr < |tb.travel_y| then [] else [NO_DIRECTION])

/-- The observable actions of `process_blob_movements`, in execution
order: counter increments, then the track-end callback invocation (the
source fires `tracking_end_callback` after all `add_movement` calls). -/
inductive TrackerAction where
  | inc (direction : ℤ)
  | end_callback
deriving DecidableEq

/-- The ordered action trace of `ThermalTracker::process_blob_movements`. -/
def process_blob_movements_trace (thr : ℚ) (tb : TrackedBlob) : List TrackerAction :=
  (process_blob_movement_directions thr tb).map TrackerAction.inc
    ++ [TrackerAction.end_callback]

/-- The effect of `ThermalTracker::process_blob_movements` on the movement
counters (the dying track is passed by value, so the final `blob.id = 0` of
the source has no effect on tracker state). -/
def process_blob_movements (thr : ℚ) (tb : TrackedBlob) (s : MovState) : MovState :=
  (process_blob_movement_directions thr tb).foldl add_movement s

/-! ### Difference matrix, greedy matching (ThermalTracker.cpp 426-562) -/

/-- The `float difference_matrix[MAX_BLOBS][MAX_BLOBS]`, indexed by the C
`int` indexes. -/
abbrev DiffMatrix := ℤ → ℤ → ℚ

/-- The row-major index pairs visited by the double loops of
`get_lowest_difference` and `generate_difference_matrix`. -/
def idxPairs : List (ℤ × ℤ) :=
  (List.range 8).flatMap fun i => (List.range 8).map fun j => ((i : ℤ), (j : ℤ))

/-- One comparison step of `ThermalTracker::get_lowest_difference`: the
running minimum is replaced when the entry is below both the running
minimum and `max_difference_threshold`. -/
def lowestStep (thr : ℚ) (m : DiffMatrix) (acc : ℚ × ℤ × ℤ) (ij : ℤ × ℤ) : ℚ × ℤ × ℤ :=
  if m ij.1 ij.2 < acc.1 ∧ m ij.1 ij.2 < thr then (m ij.1 ij.2, ij.1, ij.2) else acc

/-- `ThermalTracker::get_lowest_difference`: scan the matrix in row-major
order starting from `(max_difference_threshold, -1, -1)`. -/
def get_lowest_difference (thr : ℚ) (m : DiffMatrix) : ℚ × ℤ × ℤ :=
  idxPairs.foldl (lowestStep thr m) (thr, -1, -1)

/-- `ThermalTracker::remove_difference_row_col`: overwrite row `row` and
column `col` with `max_difference_threshold`. -/
def remove_difference_row_col (thr : ℚ) (row col : ℤ) (m : DiffMatrix) : DiffMatrix :=
  fun i j => if i = row ∨ j = col then thr else m i j

/-- The matched `(tracked, blob)` index pairs produced by the greedy
matching loop of `ThermalTracker::update_tracked_blobs`: repeatedly take
the lowest entry while it is strictly below `max_difference_threshold`,
recording the pair and blanking its row and column.  The loop of the
source terminates on its own; `fuel` bounds the recursion and 64 (one per
matrix entry) is more than enough. -/
def match_loop (thr : ℚ) : ℕ → DiffMatrix → List (ℤ × ℤ)
  | 0, _ => []
  | fuel + 1, m =>
    let r := get_lowest_difference thr m
    if r.1 < thr then
      (r.2.1, r.2.2) :: match_loop thr fuel (remove_difference_row_col thr r.2.1 r.2.2 m)
    else []

/-- `ThermalTracker::generate_difference_matrix`: entry `(i, j)` is the
difference score of tracked blob `i` against new blob `j` when both are
active, and `max_difference_threshold` otherwise (also outside the 8×8
range, which the source never reads). -/
def generate_difference_matrix (p : Params) (thr : ℚ)
    (tracked_blobs : Fin 8 → TrackedBlob) (blobs : Fin 8 → Blob) : DiffMatrix :=
  fun i j =>
    if h : 0 ≤ i ∧ i < 8 ∧ 0 ≤ j ∧ j < 8 then
      let ti := tracked_blobs ⟨i.toNat, by omega⟩
      let bj := blobs ⟨j.toNat, by omega⟩
      if bj.is_active ∧ ti.is_active then ti.get_difference p bj else thr
    else thr

/-- The matched index pairs of one `update_tracked_blobs` call. -/
def update_tracked_blobs_matches (p : Params) (thr : ℚ)
    (tracked_blobs : Fin 8 → TrackedBlob) (blobs : Fin 8 → Blob) : List (ℤ × ℤ) :=
  match_loop thr 64 (generate_difference_matrix p thr tracked_blobs blobs)

/-- The shape of a `get_lowest_difference` accumulator: either still the
initial `(max_difference_threshold, -1, -1)` or a strictly-below-threshold
matrix entry together with its in-range indexes. -/
def LowestForm (thr : ℚ) (m : DiffMatrix) (acc : ℚ × ℤ × ℤ) : Prop :=
  acc = (thr, -1, -1)
    ∨ ∃ a b, 0 ≤ a ∧ a < 8 ∧ 0 ≤ b ∧ b < 8 ∧ acc = (m a b, a, b) ∧ m a b < thr

/-- Row `r` of the matrix holds no entry strictly below the threshold. -/
def RowHigh (thr : ℚ) (m : DiffMatrix) (r : ℤ) : Prop :=
  ∀ j, 0 ≤ j → j < 8 → ¬ m r j < thr

/-- Column `c` of the matrix holds no entry strictly below the
threshold. -/
def ColHigh (thr : ℚ) (m : DiffMatrix) (c : ℤ) : Prop :=
  ∀ i, 0 ≤ i → i < 8 → ¬ m i c < thr

/-! ### Track ageing, compaction and promotion (ThermalTracker.cpp 460-630) -/

/-- `ThermalTracker::get_num_blobs(TrackedBlob[])`: count the active
tracked blobs. -/
def get_num_tracked_blobs (arr : Fin 8 → TrackedBlob) : ℕ :=
  ((List.finRange 8).filter fun k => (arr k).is_active).length

/-- `ThermalTracker::get_num_blobs(Blob[])`: count the active blobs. -/
def get_num_blobs (blobs : Fin 8 → Blob) : ℕ :=
  ((List.finRange 8).filter fun k => (blobs k).is_active).length

/-- `ThermalTracker::get_num_updated_blobs`: count the tracked blobs with
`has_updated` set. -/
def get_num_updated_blobs (arr : Fin 8 → TrackedBlob) : ℕ :=
  ((List.finRange 8).filter fun k => (arr k).has_updated).length

/-- `ThermalTracker::get_num_unassigned_blobs`: count the active blobs not
yet assigned to a track. -/
def get_num_unassigned_blobs (blobs : Fin 8 → Blob) : ℕ :=
  ((List.finRange 8).filter fun k => (blobs k).is_active && !(blobs k).is_assigned).length

/-- The body of the `for` loop of `ThermalTracker::sort_tracked_blobs` for
slot `i`, acting on the array together with the running `free_index`.  The
call `process_blob_movements(tracked_blobs[i])` on a dying active track
only touches the movement counters (the track is passed by value), so it
does not appear in the array transformation. -/
def sort_step (max_dead_frames : ℕ) (acc : (Fin 8 → TrackedBlob) × ℕ) (i : Fin 8) :
    (Fin 8 → TrackedBlob) × ℕ :=
  let arr := acc.1
  let free_index := acc.2
  let arr1 := if (arr i).has_updated then arr
    else Function.update arr i { arr i with num_dead_frames := (arr i).num_dead_frames + 1 }
  let t := arr1 i
  if t.has_updated = true ∨ t.num_dead_frames < max_dead_frames then
    if h : free_index < (i : ℕ) then
      (Function.update (Function.update arr1 ⟨free_index, by omega⟩
          (((arr1 ⟨free_index, by omega⟩)).copy t)) i t.clear,
        free_index + 1)
    else (arr1, free_index)
  else
    (Function.update arr1 i t.clear, if (i : ℕ) < free_index then (i : ℕ) else free_index)

/-- `ThermalTracker::sort_tracked_blobs`: age, finalise and compact the
tracked-blob array (`free_index` starts at `MAX_BLOBS + 1`). -/
def sort_tracked_blobs (max_dead_frames : ℕ) (arr : Fin 8 → TrackedBlob) :
    Fin 8 → TrackedBlob :=
  ((List.finRange 8).foldl (sort_step max_dead_frames) (arr, MAX_BLOBS + 1)).1

/-- The write `tracked_blobs[num_updated_blobs].set(new_blobs[i], track_id++)`
of `add_remaining_blobs_to_tracked`.  An out-of-range index would be an
out-of-bounds array write in the C source (undefined); it is modelled as a
no-op and ruled out by the hypotheses of the theorems below. -/
def write_track (t : Fin 8 → TrackedBlob) (n : ℕ) (b : Blob) (tid now : ℕ) :
    Fin 8 → TrackedBlob :=
  if h : n < 8 then Function.update t ⟨n, h⟩ ((t ⟨n, h⟩).setWithId b tid now) else t

/-- The `while (num_unassigned_blobs > 0 && i < MAX_BLOBS)` loop of
`ThermalTracker::add_remaining_blobs_to_tracked`: promote each active,
unassigned blob into slot `num_updated` (then increment it and the static
`track_id`).  The track-start callback fired on promotion does not modify
the tracker state.  `fuel` starts at 8, matching the at most 8 loop
iterations. -/
def add_remaining_loop (now : ℕ) :
    ℕ → ℕ → (Fin 8 → TrackedBlob) → (Fin 8 → Blob) → ℕ → ℕ → ℕ →
      (Fin 8 → TrackedBlob) × (Fin 8 → Blob) × ℕ
  | 0, _, t, b, _, _, tid => (t, b, tid)
  | fuel + 1, i, t, b, num_updated, num_unassigned, tid =>
    if h : 0 < num_unassigned ∧ i < 8 then
      let bi := b ⟨i, h.2⟩
      if bi.is_active = true ∧ bi.is_assigned = false then
        add_remaining_loop now fuel (i + 1)
          (write_track t num_updated bi tid now)
          (Function.update b ⟨i, h.2⟩ bi.set_assigned)
          (num_updated + 1) (num_unassigned - 1) (tid + 1)
      else
        add_remaining_loop now fuel (i + 1) t b num_updated num_unassigned tid
    else (t, b, tid)

/-- `ThermalTracker::add_remaining_blobs_to_tracked` (the returned `ℕ` is
the static `track_id` counter after the call). -/
def add_remaining_blobs_to_tracked (now : ℕ) (t : Fin 8 → TrackedBlob)
    (b : Fin 8 → Blob) (tid : ℕ) : (Fin 8 → TrackedBlob) × (Fin 8 → Blob) × ℕ :=
  let num_updated := get_num_updated_blobs t
  let num_unassigned := get_num_unassigned_blobs b
  if 0 < num_unassigned then
    add_remaining_loop now 8 0 t b num_updated num_unassigned tid
  else (t, b, tid)

/-! ### Background model (ThermalTracker.cpp 33-178) -/

/-- A 4×16 frame of per-pixel temperatures. -/
abbrev Frame := Fin 4 → Fin 16 → ℚ

/-- The background-related portion of the `ThermalTracker` state. -/
structure TrackerState where
  frame : Frame
  pixel_averages : Frame
  pixel_variance : Frame
  num_background_frames : ℕ
  running_average_size : ℕ
  num_unchanged_frames : ℕ
  num_last_blobs : ℕ

/-- `ThermalTracker::is_background_finished`. -/
def is_background_finished (st : TrackerState) : Bool :=
  st.running_average_size ≤ st.num_background_frames

/-- `ThermalTracker::build_background` (the initial, fixed-population
phase).  The `sqrtf` applied to each variance cell on the final frame is
the C float square root, passed in as a parameter. -/
def build_background (sqrtf : ℚ → ℚ) (st : TrackerState) : TrackerState :=
  let st1 :=
    if st.num_background_frames = 0 then
      { st with pixel_averages := st.frame, pixel_variance := fun _ _ => 0 }
    else
      { st with
        pixel_averages := fun i j =>
          st.pixel_averages i j
            + (st.frame i j - st.pixel_averages i j) / ((st.num_background_frames : ℚ) + 1)
        pixel_variance := fun i j =>
          st.pixel_variance i j
            + (st.frame i j
                - (st.pixel_averages i j
                    + (st.frame i j - st.pixel_averages i j)
                        / ((st.num_background_frames : ℚ) + 1)))
              * (st.frame i j - st.pixel_averages i j) }
  let st2 := { st1 with num_background_frames := st1.num_background_frames + 1 }
  if st2.num_background_frames = st2.running_average_size then
    { st2 with
      pixel_variance := fun i j =>
        sqrtf (st2.pixel_variance i j / ((st2.num_background_frames : ℚ) - 1)) }
  else st2

/-- `ThermalTracker::add_current_frame_to_background` (the rolling,
steady-state fold): per pixel the mean becomes the weighted average and
the variance uses the distance to the UPDATED mean. -/
def add_current_frame_to_background (st : TrackerState) : TrackerState :=
  { st with
    pixel_averages := fun i j =>
      (st.pixel_averages i j * ((st.running_average_size : ℚ) - 1) + st.frame i j)
        / (st.running_average_size : ℚ)
    pixel_variance := fun i j =>
      (st.pixel_variance i j * ((st.running_average_size : ℚ) - 1)
          + |st.frame i j
              - (st.pixel_averages i j * ((st.running_average_size : ℚ) - 1) + st.frame i j)
                  / (st.running_average_size : ℚ)|)
        / (st.running_average_size : ℚ) }

/-- The steady-state (background already built) branch of
`ThermalTracker::update`, lines 50-78, given the number of pruned blobs
the frame produced.  The intervening `track_blobs` call only touches the
track array and movement counters, never the background fields, and is
modelled separately. -/
def update_steady (num_blobs : ℕ) (st : TrackerState) : TrackerState :=
  let add_frame_to_average := if 0 < num_blobs then
      st.num_unchanged_frames + 1 > UNCHANGED_FRAME_DELAY
    else true
  let st1 := if 0 < num_blobs then
      { st with num_unchanged_frames := st.num_unchanged_frames + 1 }
    else
      { st with num_unchanged_frames := 0 }
  let st2 := { st1 with num_last_blobs := num_blobs }
  if add_frame_to_average then add_current_frame_to_background st2 else st2

/-! ### Concrete instances used by counterexamples and witnesses -/

/-- A track whose blob sits near the right edge without satisfying either
`is_touching_side` condition: centroid 14, width 4. -/
def c2_track : TrackedBlob :=
  { TrackedBlob.init with
    blob := { Blob.clear with centroid_x := 14, centroid_y := 2, width := 4, height := 2, num_pixels := 6 }
    predicted_position_x := 15
    predicted_position_y := 2
    travel_x := -5
    times_updated := 2 }

/-- An arbitrary candidate blob for the direction-difference evaluation. -/
def c2_blob : Blob :=
  { Blob.clear with centroid_x := 15, centroid_y := 2, width := 4, height := 2, num_pixels := 6 }

/-- A movement-counter state with non-zero counters and the changed flag
raised. -/
def c9_state : MovState :=
  { movements := fun _ => 3, movement_changed_since_last_check := true }

/-- A dying track that travelled 6 pixels left and 2 up: only the
horizontal axis exceeds the default travel threshold of 4. -/
def c5_track : TrackedBlob :=
  { TrackedBlob.init with travel_x := -6, travel_y := 2 }

/-- An active blob used to seed tracks in the promotion examples. -/
def c1_blobA : Blob :=
  { Blob.clear with
    centroid_x := 3
    centroid_y := 1
    num_pixels := 4
    width := 2
    height := 2
    aspect_ratio := 1
    average_temperature := 30 }

/-- A fresh unassigned active blob awaiting promotion. -/
def c1_newBlob : Blob :=
  { Blob.clear with
    centroid_x := 10
    centroid_y := 2
    num_pixels := 5
    width := 3
    height := 2
    aspect_ratio := 1
    average_temperature := 31 }

/-- An active track that received no match this frame (`has_updated` false,
no dead frames yet): it survives ageing under `max_dead_frames = 4`. -/
def c1_track0 : TrackedBlob :=
  { TrackedBlob.init with blob := c1_blobA, id := 7, times_updated := 3 }

/-- A track array holding only the unmatched surviving track in slot 0. -/
def c1_tracks : Fin 8 → TrackedBlob :=
  fun k => if k = 0 then c1_track0 else TrackedBlob.init

/-- A blob array holding only the fresh unassigned blob in slot 0. -/
def c1_blobs : Fin 8 → Blob :=
  fun k => if k = 0 then c1_newBlob else Blob.clear

/-- The track array of the counterexample after ageing/compaction. -/
def c1_sorted : Fin 8 → TrackedBlob := sort_tracked_blobs 4 c1_tracks

/-- An active track that WAS matched this frame (`has_updated` true). -/
def c1w_track : TrackedBlob :=
  { TrackedBlob.init with blob := c1_blobA, has_updated := true, id := 3 }

/-- A track array holding only the updated track in slot 0. -/
def c1w_tracks : Fin 8 → TrackedBlob :=
  fun k => if k = 0 then c1w_track else TrackedBlob.init

/-- A blob array holding only a fresh unassigned blob in slot 0. -/
def c1w_blobs : Fin 8 → Blob :=
  fun k => if k = 0 then c1_newBlob else Blob.clear

/-- A matrix with every entry at the threshold (no possible match). -/
def c10_mHigh : DiffMatrix := fun _ _ => 400

/-- A matrix with a single entry below the threshold. -/
def c10_mLow : DiffMatrix := fun i j => if i = 2 ∧ j = 3 then 5 else 400

/-- A background state one frame away from completing the initial build. -/
def c7_state : TrackerState :=
  { frame := fun _ _ => 30
    pixel_averages := fun _ _ => 20
    pixel_variance := fun _ _ => 8
    num_background_frames := 1
    running_average_size := 2
    num_unchanged_frames := 0
    num_last_blobs := 0 }

/-- A steady-state background state used by the C6 witness. -/
def c6_state : TrackerState :=
  { frame := fun _ _ => 26
    pixel_averages := fun _ _ => 22
    pixel_variance := fun _ _ => 2
    num_background_frames := 4
    running_average_size := 4
    num_unchanged_frames := 0
    num_last_blobs := 0 }

/-!
## Theorems
-/

/-- C8: for every tracked blob, `is_touching_side` returns true exactly when
`centroid_x - width/2 ≤ 1` or `centroid_x + width/2 ≤ frame_width - 1`
(with `frame_width = 16` and `width/2` the source's integer halving), and
returns false otherwise. -/
theorem c8_is_touching_side (tb : TrackedBlob) :
    tb.is_touching_side = true ↔
      (tb.blob.centroid_x - ((tb.blob.width / 2 : ℕ) : ℚ) ≤ 1
        ∨ tb.blob.centroid_x + ((tb.blob.width / 2 : ℕ) : ℚ) ≤ (16 : ℚ) - 1) := by
  unfold TrackedBlob.is_touching_side
  split_ifs with h1 h2 <;> simp_all

/-- C3: the total returned by `get_difference` is the sum of the position,
area, aspect-ratio, temperature and direction components, the first three
each carrying the edge-penalty factor and the temperature component not;
the dead-frame penalty `num_dead_frames * dead_frame_penalty` is recorded
but excluded from the total. -/
theorem c3_total_difference (p : Params) (tb : TrackedBlob) (b : Blob) :
    tb.get_difference p b =
        (if 0 ≤ tb.predicted_position_x ∧ 0 ≤ tb.predicted_position_y then
            |tb.predicted_position_x - b.centroid_x| * p.position_penalty
              + |tb.predicted_position_y - b.centroid_y| * p.position_penalty
          else
            |tb.blob.centroid_x - b.centroid_x| * p.position_penalty
              + |tb.blob.centroid_y - b.centroid_y| * p.position_penalty)
            * tb.get_edge_penalty b.centroid_x
          + |(tb.blob.get_size : ℚ) - (b.get_size : ℚ)| * p.area_penalty
              * tb.get_edge_penalty b.centroid_x
          + |tb.blob.aspect_ratio - b.aspect_ratio| * p.aspect_ratio_penalty
              * tb.get_edge_penalty b.centroid_x
          + |tb.blob.average_temperature - b.average_temperature| * p.temperature_penalty
          + TrackedBlob.calculate_direction_difference p tb b
      ∧ (TrackedBlob.get_difference_record p tb b).dead_frame_difference
          = (tb.num_dead_frames : ℚ) * p.dead_frame_penalty := by
  constructor <;> rfl

/-- The counterexample track of C2 satisfies neither side condition. -/
theorem c2_track_not_touching : c2_track.is_touching_side = false := by
  have h1 : ¬ (c2_track.blob.centroid_x - ((c2_track.blob.width / 2 : ℕ) : ℚ) ≤ 1) := by
    norm_num [c2_track]
  have h2 : ¬ (c2_track.blob.centroid_x + ((c2_track.blob.width / 2 : ℕ) : ℚ) ≤ (16 : ℚ) - 1) := by
    norm_num [c2_track]
  simp [TrackedBlob.is_touching_side, h1, h2]

/-- C2 (code bug): on a track that is not touching a side, with
`times_updated = 2`, latest direction `+1` and accumulated `travel_x = -5`
— i.e. the signs of the latest direction and of `travel_x` differ, so the
claim requires `direction_penalty` (50) — `calculate_direction_difference`
as written returns 0, because the source compares the sign of
`latest_direction` with `travel >= 0`, the array base pointer, which is
always true. -/
theorem c2_direction_difference_bug :
    c2_track.is_touching_side = false
      ∧ 1 < c2_track.times_updated
      ∧ 0 ≤ TrackedBlob.truncToInt (c2_track.predicted_position_x - c2_track.blob.centroid_x)
      ∧ c2_track.travel_x < 0
      ∧ defaultParams.direction_penalty = 50
      ∧ TrackedBlob.calculate_direction_difference defaultParams c2_track c2_blob = 0 := by
  have hl : c2_track.predicted_position_x - c2_track.blob.centroid_x = 1 := by
    norm_num [c2_track]
  refine ⟨c2_track_not_touching, by decide, ?_, by norm_num [c2_track], rfl, ?_⟩
  · rw [hl]
    norm_num [TrackedBlob.truncToInt, Rat.num_one, Rat.den_one]
  · simp only [TrackedBlob.calculate_direction_difference, c2_track_not_touching, hl]
    norm_num [TrackedBlob.truncToInt, Rat.num_one, Rat.den_one]

/-- C9 (amended): `reset_movements` is idempotent on the counters — after
two calls every counter is zero and a second call changes nothing — but it
leaves `movement_changed_since_last_check` untouched, so
`has_new_movements` returns exactly what it returned before the calls
(only `get_movements` clears the flag). -/
theorem c9_reset_movements_amended (s : MovState) :
    (∀ k, (reset_movements (reset_movements s)).movements k = 0)
      ∧ reset_movements (reset_movements s) = reset_movements s
      ∧ has_new_movements (reset_movements (reset_movements s)) = has_new_movements s := by
  exact ⟨fun _ => rfl, rfl, rfl⟩

/-- C9 counterexample: from a state with the changed flag raised, two
`reset_movements` calls do zero the counters but leave
`has_new_movements` returning true, refuting the claim that it returns
false. -/
theorem c9_counterexample :
    ¬ ((∀ k, (reset_movements (reset_movements c9_state)).movements k = 0)
        ∧ has_new_movements (reset_movements (reset_movements c9_state)) = false) := by
  intro h
  exact absurd h.2 (by decide)

/-- `constrain(LEFT, 0, 4)` indexes slot 0. -/
theorem clampDir_LEFT : clampDir LEFT = 0 := by decide

/-- `constrain(RIGHT, 0, 4)` indexes slot 1. -/
theorem clampDir_RIGHT : clampDir RIGHT = 1 := by decide

/-- `constrain(UP, 0, 4)` indexes slot 2. -/
theorem clampDir_UP : clampDir UP = 2 := by decide

/-- `constrain(DOWN, 0, 4)` indexes slot 3. -/
theorem clampDir_DOWN : clampDir DOWN = 3 := by decide

/-- `constrain(NO_DIRECTION, 0, 4)` indexes slot 4. -/
theorem clampDir_NO_DIRECTION : clampDir NO_DIRECTION = 4 := by decide

/-- One `add_movement` call bumps exactly the clamped counter. -/
theorem add_movement_movements (s : MovState) (d : ℤ) (k : Fin 5) :
    (add_movement s d).movements k =
      if k = clampDir d then s.movements k + 1 else s.movements k := by
  unfold add_movement
  rcases eq_or_ne k (clampDir d) with h | h
  · subst h; simp
  · simp [Function.update_apply, h]

/-- The action trace of `process_blob_movements` ends with the track-end
callback. -/
theorem process_trace_last (thr : ℚ) (tb : TrackedBlob) :
    (process_blob_movements_trace thr tb).getLast? = some TrackerAction.end_callback := by
  rw [process_blob_movements_trace, List.getLast?_concat]

/-- Every action before the last one in the trace of
`process_blob_movements` is a counter increment, not the callback. -/
theorem process_trace_incs (thr : ℚ) (tb : TrackedBlob) :
    ∀ a ∈ (process_blob_movements_trace thr tb).dropLast,
      a ≠ TrackerAction.end_callback := by
  rw [process_blob_movements_trace, List.dropLast_concat]
  intro a ha
  obtain ⟨d, _, rfl⟩ := List.mem_map.1 ha
  simp

/-- C5: when a tracked blob is finalised, `process_blob_movements`
increments LEFT exactly when `|travel_x| > threshold ∧ travel_x < 0`,
RIGHT exactly when `|travel_x| > threshold ∧ travel_x ≥ 0`, UP exactly
when `|travel_y| > threshold ∧ travel_y > 0`, DOWN exactly when
`|travel_y| > threshold ∧ travel_y ≤ 0`, and NO_DIRECTION exactly when
neither axis exceeds the threshold (so both axes can fire for one track);
and in the action trace every increment precedes the track-end
callback, which comes last. -/
theorem c5_movement_classification (thr : ℚ) (tb : TrackedBlob) (s : MovState) :
    ((process_blob_movements thr tb s).movements 0
        = s.movements 0 + (if thr < |tb.travel_x| ∧ tb.travel_x < 0 then 1 else 0))
      ∧ ((process_blob_movements thr tb s).movements 1
        = s.movements 1 + (if thr < |tb.travel_x| ∧ ¬ tb.travel_x < 0 then 1 else 0))
      ∧ ((process_blob_movements thr tb s).movements 2
        = s.movements 2 + (if thr < |tb.travel_y| ∧ 0 < tb.travel_y then 1 else 0))
      ∧ ((process_blob_movements thr tb s).movements 3
        = s.movements 3 + (if thr < |tb.travel_y| ∧ ¬ 0 < tb.travel_y then 1 else 0))
      ∧ ((process_blob_movements thr tb s).movements 4
        = s.movements 4 + (if ¬ (thr < |tb.travel_x| ∨ thr < |tb.travel_y|) then 1 else 0))
      ∧ (process_blob_movements_trace thr tb).getLast? = some TrackerAction.end_callback
      ∧ (∀ a ∈ (process_blob_movements_trace thr tb).dropLast,
          a ≠ TrackerAction.end_callback) := by
  refine ⟨?_, ?_, ?_, ?_, ?_, process_trace_last thr tb, process_trace_incs thr tb⟩ <;>
    · simp only [process_blob_movements, process_blob_movement_directions]
      split_ifs <;>
        simp_all [add_movement_movements, clampDir_LEFT, clampDir_RIGHT, clampDir_UP,
          clampDir_DOWN, clampDir_NO_DIRECTION]

/-- C5 witness: a track with `travel_x = -6` under threshold 4 bumps the
LEFT counter from 3 to 4, and the increment recorded in the trace is not
the track-end callback. -/
theorem c5_witness :
    (process_blob_movements 4 c5_track c9_state).movements 0 = 4
      ∧ TrackerAction.inc LEFT ≠ TrackerAction.end_callback := by
  obtain ⟨h0, -, -, -, -, -, htr⟩ := c5_movement_classification 4 c5_track c9_state
  constructor
  · rw [h0]
    have h1 : (4 : ℚ) < |c5_track.travel_x| ∧ c5_track.travel_x < 0 := by
      norm_num [c5_track]
    rw [if_pos h1]
    norm_num [c9_state]
  · apply htr
    rw [process_blob_movements_trace, List.dropLast_concat]
    have h1 : (4 : ℚ) < |c5_track.travel_x| := by norm_num [c5_track]
    have h2 : c5_track.travel_x < 0 := by norm_num [c5_track]
    have h3 : ¬ (4 : ℚ) < |c5_track.travel_y| := by norm_num [c5_track]
    simp [process_blob_movement_directions, h1, h2, h3]

/-- C6: in steady state, a frame with zero pruned blobs resets
`num_unchanged_frames` and is folded into the rolling background; a frame
with blobs increments the counter and is folded only once the counter
exceeds `UNCHANGED_FRAME_DELAY`; the rolling fold maps each pixel mean to
`(mean*(R-1) + x)/R` and each deviation cell to `(sigma*(R-1) + |x - mean_new|)/R`
with `R = running_average_size` and `mean_new` the updated mean. -/
theorem c6_background_gate (nb : ℕ) (st : TrackerState) (i : Fin 4) (j : Fin 16) :
    (nb = 0 →
        (update_steady nb st).num_unchanged_frames = 0
          ∧ (update_steady nb st).pixel_averages i j
              = (st.pixel_averages i j * ((st.running_average_size : ℚ) - 1) + st.frame i j)
                  / (st.running_average_size : ℚ)
          ∧ (update_steady nb st).pixel_variance i j
              = (st.pixel_variance i j * ((st.running_average_size : ℚ) - 1)
                    + |st.frame i j
                        - (st.pixel_averages i j * ((st.running_average_size : ℚ) - 1)
                              + st.frame i j) / (st.running_average_size : ℚ)|)
                  / (st.running_average_size : ℚ))
      ∧ (0 < nb →
          (update_steady nb st).num_unchanged_frames = st.num_unchanged_frames + 1
            ∧ (UNCHANGED_FRAME_DELAY < st.num_unchanged_frames + 1 →
                (update_steady nb st).pixel_averages i j
                  = (st.pixel_averages i j * ((st.running_average_size : ℚ) - 1) + st.frame i j)
                      / (st.running_average_size : ℚ))
            ∧ (¬ UNCHANGED_FRAME_DELAY < st.num_unchanged_frames + 1 →
                (update_steady nb st).pixel_averages i j = st.pixel_averages i j
                  ∧ (update_steady nb st).pixel_variance i j = st.pixel_variance i j)) := by
  constructor
  · rintro rfl
    simp [update_steady, add_current_frame_to_background]
  · intro hnb
    have hnb' : ¬ nb = 0 := by omega
    refine ⟨?_, ?_, ?_⟩
    · simp only [update_steady, add_current_frame_to_background, hnb, if_pos]
      split <;> rfl
    · intro hd
      simp [update_steady, add_current_frame_to_background, hnb, hd]
    · intro hd
      simp [update_steady, add_current_frame_to_background, hnb, hd]

/-- C6 witness: a concrete quiet frame (zero blobs) resets the counter and
folds the frame into the rolling background. -/
theorem c6_witness :
    (update_steady 0 c6_state).num_unchanged_frames = 0
      ∧ (update_steady 0 c6_state).pixel_averages 0 0 = 23
      ∧ (update_steady 0 c6_state).pixel_variance 0 0 = 9 / 4 := by
  obtain ⟨h1, h2, h3⟩ := (c6_background_gate 0 c6_state 0 0).1 rfl
  refine ⟨h1, ?_, ?_⟩
  · rw [h2]; norm_num [c6_state]
  · rw [h3]; norm_num [c6_state]

/-- C7: during the initial background build, the first frame seeds the
mean with the frame and the variance accumulator with 0; each later frame
applies Welford's recurrences (`mean += d/(n+1)`,
`M2 += (x - mean_new) * d` with `d = x - mean_prev`); and on the frame
where the count reaches `running_average_size` each variance cell is
replaced by `sqrtf(M2/(n-1))`, after which `is_background_finished`
returns true. -/
theorem c7_welford_build (sqrtf : ℚ → ℚ) (st : TrackerState) (i : Fin 4) (j : Fin 16) :
    (st.num_background_frames = 0 → st.running_average_size ≠ 1 →
        (build_background sqrtf st).pixel_averages i j = st.frame i j
          ∧ (build_background sqrtf st).pixel_variance i j = 0)
      ∧ (0 < st.num_background_frames →
          st.num_background_frames + 1 ≠ st.running_average_size →
          (build_background sqrtf st).pixel_averages i j
              = st.pixel_averages i j
                  + (st.frame i j - st.pixel_averages i j)
                      / ((st.num_background_frames : ℚ) + 1)
            ∧ (build_background sqrtf st).pixel_variance i j
              = st.pixel_variance i j
                  + (st.frame i j
                      - (st.pixel_averages i j
                          + (st.frame i j - st.pixel_averages i j)
                              / ((st.num_background_frames : ℚ) + 1)))
                    * (st.frame i j - st.pixel_averages i j))
      ∧ (0 < st.num_background_frames →
          st.num_background_frames + 1 = st.running_average_size →
          (build_background sqrtf st).pixel_variance i j
              = sqrtf ((st.pixel_variance i j
                    + (st.frame i j
                        - (st.pixel_averages i j
                            + (st.frame i j - st.pixel_averages i j)
                                / ((st.num_background_frames : ℚ) + 1)))
                      * (st.frame i j - st.pixel_averages i j))
                  / ((st.running_average_size : ℚ) - 1))
            ∧ (build_background sqrtf st).pixel_averages i j
              = st.pixel_averages i j
                  + (st.frame i j - st.pixel_averages i j)
                      / ((st.num_background_frames : ℚ) + 1)
            ∧ is_background_finished (build_background sqrtf st) = true) := by
  refine ⟨?_, ?_, ?_⟩
  · intro h0 hR
    have hne : ¬ (1 = st.running_average_size) := fun h => hR h.symm
    simp [build_background, h0, hne]
  · intro hn hne
    have h0 : ¬ st.num_background_frames = 0 := by omega
    simp [build_background, h0, hne]
  · intro hn heq
    have h0 : ¬ st.num_background_frames = 0 := by omega
    simp [build_background, is_background_finished, h0, heq]

/-- C7 witness: with `running_average_size = 2`, the second frame closes
the build — the variance cell becomes `sqrtf(M2/(n-1))` (here `sqrtf = id`)
and `is_background_finished` flips to true. -/
theorem c7_witness :
    0 < c7_state.num_background_frames
      ∧ c7_state.num_background_frames + 1 = c7_state.running_average_size
      ∧ (build_background id c7_state).pixel_variance 0 0 = 58
      ∧ (build_background id c7_state).pixel_averages 0 0 = 25
      ∧ is_background_finished (build_background id c7_state) = true := by
  obtain ⟨h1, h2, h3⟩ :=
    (c7_welford_build id c7_state 0 0).2.2 (by norm_num [c7_state]) (by norm_num [c7_state])
  refine ⟨by norm_num [c7_state], by norm_num [c7_state], ?_, ?_, h3⟩
  · rw [h1]; norm_num [c7_state]
  · rw [h2]; norm_num [c7_state]

/-- Every index pair scanned by the double loop lies in the 8×8 grid. -/
theorem mem_idxPairs_bounds : ∀ p ∈ idxPairs, 0 ≤ p.1 ∧ p.1 < 8 ∧ 0 ≤ p.2 ∧ p.2 < 8 := by
  decide

/-- Every in-range index pair is scanned by the double loop. -/
theorem idxPairs_complete :
    ∀ i j : ℤ, 0 ≤ i → i < 8 → 0 ≤ j → j < 8 → (i, j) ∈ idxPairs := by
  intro i j h1 h2 h3 h4
  interval_cases i <;> interval_cases j <;> decide

/-- One comparison step preserves the accumulator shape. -/
theorem lowestStep_form (thr : ℚ) (m : DiffMatrix) (acc : ℚ × ℤ × ℤ) (p : ℤ × ℤ)
    (hp : 0 ≤ p.1 ∧ p.1 < 8 ∧ 0 ≤ p.2 ∧ p.2 < 8) (h : LowestForm thr m acc) :
    LowestForm thr m (lowestStep thr m acc p) := by
  unfold lowestStep
  split_ifs with hc
  · exact Or.inr ⟨p.1, p.2, hp.1, hp.2.1, hp.2.2.1, hp.2.2.2, rfl, hc.2⟩
  · exact h

/-- The scan preserves the accumulator shape. -/
theorem foldl_lowestStep_form (thr : ℚ) (m : DiffMatrix) (L : List (ℤ × ℤ)) :
    ∀ acc, (∀ p ∈ L, 0 ≤ p.1 ∧ p.1 < 8 ∧ 0 ≤ p.2 ∧ p.2 < 8) → LowestForm thr m acc →
      LowestForm thr m (L.foldl (lowestStep thr m) acc) := by
  induction L with
  | nil => intro acc _ h; exact h
  | cons p L ih =>
    intro acc hL h
    rw [List.foldl_cons]
    exact ih _ (fun q hq => hL q (List.mem_cons_of_mem p hq))
      (lowestStep_form thr m acc p (hL p (List.mem_cons_self p L)) h)

/-- `get_lowest_difference` returns either the initial sentinel or an
in-range below-threshold entry. -/
theorem get_lowest_difference_form (thr : ℚ) (m : DiffMatrix) :
    LowestForm thr m (get_lowest_difference thr m) :=
  foldl_lowestStep_form thr m idxPairs (thr, -1, -1) mem_idxPairs_bounds (Or.inl rfl)

/-- When no scanned entry is below the threshold the scan leaves the
accumulator alone. -/
theorem foldl_lowestStep_id (thr : ℚ) (m : DiffMatrix) (L : List (ℤ × ℤ)) :
    ∀ acc, (∀ p ∈ L, ¬ m p.1 p.2 < thr) → L.foldl (lowestStep thr m) acc = acc := by
  induction L with
  | nil => intro acc _; rfl
  | cons p L ih =>
    intro acc hL
    rw [List.foldl_cons]
    have h1 : lowestStep thr m acc p = acc := by
      unfold lowestStep
      rw [if_neg]
      intro hc
      exact hL p (List.mem_cons_self p L) hc.2
    rw [h1]
    exact ih acc fun q hq => hL q (List.mem_cons_of_mem p hq)

/-- A below-threshold running minimum stays below the threshold. -/
theorem foldl_lowestStep_lt (thr : ℚ) (m : DiffMatrix) (L : List (ℤ × ℤ)) :
    ∀ acc, acc.1 < thr → (L.foldl (lowestStep thr m) acc).1 < thr := by
  induction L with
  | nil => exact fun acc h => h
  | cons p L ih =>
    intro acc h
    rw [List.foldl_cons]
    apply ih
    unfold lowestStep
    split_ifs with hc
    · exact hc.2
    · exact h

/-- If some scanned entry is below the threshold, the final running
minimum is below the threshold. -/
theorem foldl_lowestStep_hit (thr : ℚ) (m : DiffMatrix) (L : List (ℤ × ℤ)) :
    ∀ acc (p : ℤ × ℤ), p ∈ L → m p.1 p.2 < thr →
      (L.foldl (lowestStep thr m) acc).1 < thr := by
  induction L with
  | nil => intro acc p hp _; cases hp
  | cons q L ih =>
    intro acc p hp hm
    rw [List.foldl_cons]
    rcases List.mem_cons.1 hp with heq | hp'
    · apply foldl_lowestStep_lt
      unfold lowestStep
      split_ifs with hc
      · exact hc.2
      · have h1 : ¬ m q.1 q.2 < acc.1 := fun hlt => hc ⟨hlt, heq ▸ hm⟩
        exact lt_of_le_of_lt (not_lt.1 h1) (heq ▸ hm)
    · exact ih (lowestStep thr m acc q) p hp' hm

/-- `get_lowest_difference` on a matrix with no below-threshold entry
returns the sentinel `(max_difference_threshold, -1, -1)`. -/
theorem get_lowest_difference_none (thr : ℚ) (m : DiffMatrix)
    (h : ∀ i j : ℤ, 0 ≤ i → i < 8 → 0 ≤ j → j < 8 → ¬ m i j < thr) :
    get_lowest_difference thr m = (thr, -1, -1) := by
  apply foldl_lowestStep_id
  intro p hp
  obtain ⟨h1, h2, h3, h4⟩ := mem_idxPairs_bounds p hp
  exact h p.1 p.2 h1 h2 h3 h4

/-- `get_lowest_difference` on a matrix with a below-threshold entry
returns something below the threshold. -/
theorem get_lowest_difference_hit (thr : ℚ) (m : DiffMatrix) (i j : ℤ)
    (h1 : 0 ≤ i) (h2 : i < 8) (h3 : 0 ≤ j) (h4 : j < 8) (h : m i j < thr) :
    (get_lowest_difference thr m).1 < thr :=
  foldl_lowestStep_hit thr m idxPairs (thr, -1, -1) (i, j)
    (idxPairs_complete i j h1 h2 h3 h4) h

/-- `remove_difference_row_col` blanks the chosen row. -/
theorem remove_rowHigh_self (thr : ℚ) (r c : ℤ) (m : DiffMatrix) :
    RowHigh thr (remove_difference_row_col thr r c m) r := by
  intro j _ _
  unfold remove_difference_row_col
  rw [if_pos (Or.inl rfl)]
  exact lt_irrefl thr

/-- `remove_difference_row_col` blanks the chosen column. -/
theorem remove_colHigh_self (thr : ℚ) (r c : ℤ) (m : DiffMatrix) :
    ColHigh thr (remove_difference_row_col thr r c m) c := by
  intro i _ _
  unfold remove_difference_row_col
  rw [if_pos (Or.inr rfl)]
  exact lt_irrefl thr

/-- Blanking a row/column never un-blanks another row. -/
theorem remove_preserves_rowHigh (thr : ℚ) (a b r : ℤ) (m : DiffMatrix)
    (h : RowHigh thr m r) : RowHigh thr (remove_difference_row_col thr a b m) r := by
  intro j hj1 hj2
  unfold remove_difference_row_col
  split_ifs with hc
  · exact lt_irrefl thr
  · exact h j hj1 hj2

/-- Blanking a row/column never un-blanks another column. -/
theorem remove_preserves_colHigh (thr : ℚ) (a b c : ℤ) (m : DiffMatrix)
    (h : ColHigh thr m c) : ColHigh thr (remove_difference_row_col thr a b m) c := by
  intro i hi1 hi2
  unfold remove_difference_row_col
  split_ifs with hc
  · exact lt_irrefl thr
  · exact h i hi1 hi2

/-- A below-threshold minimum never comes from a blanked row. -/
theorem rowHigh_lowest_ne (thr : ℚ) (m : DiffMatrix) (r : ℤ) (h : RowHigh thr m r)
    (hlt : (get_lowest_difference thr m).1 < thr) :
    (get_lowest_difference thr m).2.1 ≠ r := by
  rcases get_lowest_difference_form thr m with h0 | ⟨a, b, _, _, hb1, hb2, heq, hm⟩
  · rw [h0] at hlt
    exact absurd hlt (lt_irrefl thr)
  · rw [heq]
    intro har
    exact h b hb1 hb2 (har ▸ hm)

/-- A below-threshold minimum never comes from a blanked column. -/
theorem colHigh_lowest_ne (thr : ℚ) (m : DiffMatrix) (c : ℤ) (h : ColHigh thr m c)
    (hlt : (get_lowest_difference thr m).1 < thr) :
    (get_lowest_difference thr m).2.2 ≠ c := by
  rcases get_lowest_difference_form thr m with h0 | ⟨a, b, ha1, ha2, _, _, heq, hm⟩
  · rw [h0] at hlt
    exact absurd hlt (lt_irrefl thr)
  · rw [heq]
    intro hbc
    exact h a ha1 ha2 (hbc ▸ hm)

/-- The matching loop never selects a blanked row again. -/
theorem match_loop_rowHigh_not_mem (thr : ℚ) (r : ℤ) :
    ∀ (fuel : ℕ) (m : DiffMatrix), RowHigh thr m r →
      r ∉ (match_loop thr fuel m).map Prod.fst := by
  intro fuel
  induction fuel with
  | zero => intro m _; simp [match_loop]
  | succ n ih =>
    intro m hrow
    simp only [match_loop]
    by_cases hlt : (get_lowest_difference thr m).1 < thr
    · rw [if_pos hlt]
      simp only [List.map_cons, List.mem_cons, not_or]
      constructor
      · exact fun h => rowHigh_lowest_ne thr m r hrow hlt h.symm
      · exact ih _ (remove_preserves_rowHigh thr _ _ r m hrow)
    · rw [if_neg hlt]
      simp

/-- The matching loop never selects a blanked column again. -/
theorem match_loop_colHigh_not_mem (thr : ℚ) (c : ℤ) :
    ∀ (fuel : ℕ) (m : DiffMatrix), ColHigh thr m c →
      c ∉ (match_loop thr fuel m).map Prod.snd := by
  intro fuel
  induction fuel with
  | zero => intro m _; simp [match_loop]
  | succ n ih =>
    intro m hcol
    simp only [match_loop]
    by_cases hlt : (get_lowest_difference thr m).1 < thr
    · rw [if_pos hlt]
      simp only [List.map_cons, List.mem_cons, not_or]
      constructor
      · exact fun h => colHigh_lowest_ne thr m c hcol hlt h.symm
      · exact ih _ (remove_preserves_colHigh thr _ _ c m hcol)
    · rw [if_neg hlt]
      simp

/-- The tracked-blob indexes selected by the matching loop are pairwise
distinct. -/
theorem match_loop_nodup_fst (thr : ℚ) :
    ∀ (fuel : ℕ) (m : DiffMatrix), ((match_loop thr fuel m).map Prod.fst).Nodup := by
  intro fuel
  induction fuel with
  | zero => intro m; simp [match_loop]
  | succ n ih =>
    intro m
    simp only [match_loop]
    by_cases hlt : (get_lowest_difference thr m).1 < thr
    · rw [if_pos hlt]
      simp only [List.map_cons, List.nodup_cons]
      exact ⟨match_loop_rowHigh_not_mem thr _ n _ (remove_rowHigh_self thr _ _ m), ih _⟩
    · rw [if_neg hlt]
      simp

/-- The blob indexes selected by the matching loop are pairwise
distinct. -/
theorem match_loop_nodup_snd (thr : ℚ) :
    ∀ (fuel : ℕ) (m : DiffMatrix), ((match_loop thr fuel m).map Prod.snd).Nodup := by
  intro fuel
  induction fuel with
  | zero => intro m; simp [match_loop]
  | succ n ih =>
    intro m
    simp only [match_loop]
    by_cases hlt : (get_lowest_difference thr m).1 < thr
    · rw [if_pos hlt]
      simp only [List.map_cons, List.nodup_cons]
      exact ⟨match_loop_colHigh_not_mem thr _ n _ (remove_colHigh_self thr _ _ m), ih _⟩
    · rw [if_neg hlt]
      simp

/-- Every pair selected by the matching loop is in range. -/
theorem match_loop_bounds (thr : ℚ) :
    ∀ (fuel : ℕ) (m : DiffMatrix) (p : ℤ × ℤ), p ∈ match_loop thr fuel m →
      0 ≤ p.1 ∧ p.1 < 8 ∧ 0 ≤ p.2 ∧ p.2 < 8 := by
  intro fuel
  induction fuel with
  | zero => intro m p hp; simp [match_loop] at hp
  | succ n ih =>
    intro m p hp
    simp only [match_loop] at hp
    by_cases hlt : (get_lowest_difference thr m).1 < thr
    · rw [if_pos hlt] at hp
      rcases List.mem_cons.1 hp with heq | hp'
      · rcases get_lowest_difference_form thr m with h0 | ⟨a, b, ha1, ha2, hb1, hb2, hfo, _⟩
        · rw [h0] at hlt
          exact absurd hlt (lt_irrefl thr)
        · rw [hfo] at heq
          rw [heq]
          exact ⟨ha1, ha2, hb1, hb2⟩
      · exact ih _ p hp'
    · rw [if_neg hlt] at hp
      cases hp

/-- The matching loop performs at most eight matches. -/
theorem match_loop_length_le (thr : ℚ) (fuel : ℕ) (m : DiffMatrix) :
    (match_loop thr fuel m).length ≤ 8 := by
  have hnd := match_loop_nodup_fst thr fuel m
  have hcard : ((match_loop thr fuel m).map Prod.fst).toFinset.card
      ≤ (Finset.Icc (0 : ℤ) 7).card := by
    apply Finset.card_le_card
    intro x hx
    obtain ⟨p, hp, rfl⟩ := List.mem_map.1 (List.mem_toFinset.1 hx)
    obtain ⟨h1, h2, _, _⟩ := match_loop_bounds thr fuel m p hp
    rw [Finset.mem_Icc]
    omega
  rw [List.toFinset_card_of_nodup hnd, List.length_map] at hcard
  have h8 : (Finset.Icc (0 : ℤ) 7).card = 8 := by
    rw [Int.card_Icc]
    rfl
  omega

/-- C4: the greedy matching sweep of `update_tracked_blobs` is injective —
the per-frame match list pairs each tracked-blob row and each blob column
at most once, so no track is matched to two blobs and no blob to two
tracks. -/
theorem c4_matching_injective (thr : ℚ) (fuel : ℕ) (m : DiffMatrix) :
    ((match_loop thr fuel m).map Prod.fst).Nodup
      ∧ ((match_loop thr fuel m).map Prod.snd).Nodup :=
  ⟨match_loop_nodup_fst thr fuel m, match_loop_nodup_snd thr fuel m⟩

/-- C10: `get_lowest_difference` returns `(max_difference_threshold, -1, -1)`
when no entry is strictly below the threshold, and otherwise a value
strictly below the threshold with both indexes in `[0, 8)`; hence the
match-loop accesses through those indexes are in bounds and the loop
performs at most eight matches. -/
theorem c10_lowest_difference_safety (thr : ℚ) (m : DiffMatrix) (fuel : ℕ) :
    ((∀ i j : ℤ, 0 ≤ i → i < 8 → 0 ≤ j → j < 8 → ¬ m i j < thr) →
        get_lowest_difference thr m = (thr, -1, -1))
      ∧ ((∃ i j : ℤ, 0 ≤ i ∧ i < 8 ∧ 0 ≤ j ∧ j < 8 ∧ m i j < thr) →
          (get_lowest_difference thr m).1 < thr)
      ∧ ((get_lowest_difference thr m).1 < thr →
          0 ≤ (get_lowest_difference thr m).2.1 ∧ (get_lowest_difference thr m).2.1 < 8
            ∧ 0 ≤ (get_lowest_difference thr m).2.2 ∧ (get_lowest_difference thr m).2.2 < 8)
      ∧ (match_loop thr fuel m).length ≤ 8
      ∧ (∀ p ∈ match_loop thr fuel m,
          0 ≤ p.1 ∧ p.1 < 8 ∧ 0 ≤ p.2 ∧ p.2 < 8) := by
  refine ⟨get_lowest_difference_none thr m, ?_, ?_, match_loop_length_le thr fuel m,
    match_loop_bounds thr fuel m⟩
  · rintro ⟨i, j, h1, h2, h3, h4, h⟩
    exact get_lowest_difference_hit thr m i j h1 h2 h3 h4 h
  · intro hlt
    rcases get_lowest_difference_form thr m with h0 | ⟨a, b, ha1, ha2, hb1, hb2, heq, _⟩
    · rw [h0] at hlt
      exact absurd hlt (lt_irrefl thr)
    · rw [heq]
      exact ⟨ha1, ha2, hb1, hb2⟩

/-- C10 witness: on the all-at-threshold matrix the sentinel is returned;
on a matrix with entry 5 at (2,3) the returned difference is below the
threshold and both indexes are in range. -/
theorem c10_witness :
    get_lowest_difference 400 c10_mHigh = (400, -1, -1)
      ∧ (get_lowest_difference 400 c10_mLow).1 < 400
      ∧ (0 ≤ (get_lowest_difference 400 c10_mLow).2.1
          ∧ (get_lowest_difference 400 c10_mLow).2.1 < 8
          ∧ 0 ≤ (get_lowest_difference 400 c10_mLow).2.2
          ∧ (get_lowest_difference 400 c10_mLow).2.2 < 8) := by
  have hhigh := (c10_lowest_difference_safety 400 c10_mHigh 64).1
  have hlow := (c10_lowest_difference_safety 400 c10_mLow 64).2.1
  have hlow2 := (c10_lowest_difference_safety 400 c10_mLow 64).2.2.1
  have h1 : get_lowest_difference 400 c10_mHigh = (400, -1, -1) := by
    apply hhigh
    intro i j _ _ _ _
    norm_num [c10_mHigh]
  have h2 : (get_lowest_difference 400 c10_mLow).1 < 400 := by
    apply hlow
    refine ⟨2, 3, by norm_num, by norm_num, by norm_num, by norm_num, ?_⟩
    norm_num [c10_mLow]
  exact ⟨h1, h2, hlow2 h2⟩

/-- A write at slot `n` leaves every slot below `n` unchanged. -/
theorem write_track_lt (t : Fin 8 → TrackedBlob) (n : ℕ) (b : Blob) (tid now : ℕ)
    (k : Fin 8) (hk : (k : ℕ) < n) : write_track t n b tid now k = t k := by
  unfold write_track
  split_ifs with h
  · have hne : k ≠ (⟨n, h⟩ : Fin 8) := by
      intro he
      exact absurd (congrArg Fin.val he) (Nat.ne_of_lt hk)
    exact Function.update_noteq hne _ _
  · rfl

/-- The promotion loop writes only at slots `num_updated`, `num_updated+1`,
…: every slot below the running write index is left unchanged. -/
theorem add_remaining_loop_preserves (now : ℕ) :
    ∀ (fuel i : ℕ) (t : Fin 8 → TrackedBlob) (b : Fin 8 → Blob)
      (w rem tid : ℕ) (k : Fin 8), (k : ℕ) < w →
      (add_remaining_loop now fuel i t b w rem tid).1 k = t k := by
  intro fuel
  induction fuel with
  | zero => intro i t b w rem tid k hk; rfl
  | succ n ih =>
    intro i t b w rem tid k hk
    simp only [add_remaining_loop]
    by_cases h : 0 < rem ∧ i < 8
    · rw [dif_pos h]
      by_cases hb : (b ⟨i, h.2⟩).is_active = true ∧ (b ⟨i, h.2⟩).is_assigned = false
      · rw [if_pos hb]
        rw [ih (i + 1) _ _ (w + 1) (rem - 1) (tid + 1) k (by omega)]
        exact write_track_lt t w _ tid now k hk
      · rw [if_neg hb]
        exact ih (i + 1) t b w rem tid k hk
    · rw [dif_neg h]

set_option maxRecDepth 10000 in
/-- On `Fin 8`, a downward-closed boolean vector is true exactly on the
indexes below its count of true entries. -/
theorem front_count_bool :
    ∀ u : Fin 8 → Bool,
      (∀ j k : Fin 8, (j : ℕ) ≤ (k : ℕ) → u k = true → u j = true) →
      ∀ k : Fin 8, (u k = true ↔ (k : ℕ) < ((List.finRange 8).filter u).length) := by
  decide

/-- C1 (amended): `add_remaining_blobs_to_tracked` writes promoted blobs
to consecutive slots starting at `num_updated_blobs`; therefore, PROVIDED
every surviving (active) track has `has_updated = true`, the updated
tracks form a downward-closed prefix, and the active tracks plus
unassigned blobs fit in the 8 slots (so no out-of-bounds write occurs),
promotion leaves every surviving track's slot unchanged and every slot it
changes held no surviving track.  (Without the has_updated proviso the
original claim fails: see the counterexample.) -/
theorem c1_promotion_amended (now tid : ℕ) (t : Fin 8 → TrackedBlob) (b : Fin 8 → Blob)
    (h1 : ∀ k, (t k).is_active = (t k).has_updated)
    (h2 : ∀ j k : Fin 8, (j : ℕ) ≤ (k : ℕ) → (t k).has_updated = true →
      (t j).has_updated = true)
    (h3 : get_num_updated_blobs t + get_num_unassigned_blobs b ≤ 8) :
    (∀ k, (t k).is_active = true → (add_remaining_blobs_to_tracked now t b tid).1 k = t k)
      ∧ (∀ k, (add_remaining_blobs_to_tracked now t b tid).1 k ≠ t k →
          (t k).is_active = false) := by
  have key : ∀ k, (t k).is_active = true →
      (add_remaining_blobs_to_tracked now t b tid).1 k = t k := by
    intro k hk
    have hu : (t k).has_updated = true := by rw [← h1]; exact hk
    have hcount := (front_count_bool (fun k => (t k).has_updated) h2 k).1 hu
    by_cases hrem : 0 < get_num_unassigned_blobs b
    · simp only [add_remaining_blobs_to_tracked, if_pos hrem]
      exact add_remaining_loop_preserves now 8 0 t b _ _ tid k hcount
    · simp only [add_remaining_blobs_to_tracked, if_neg hrem]
  refine ⟨key, fun k hne => ?_⟩
  by_cases hak : (t k).is_active = true
  · exact absurd (key k hak) hne
  · exact Bool.eq_false_iff.2 hak

/-- C1 witness: with a single matched (updated) track in slot 0 and one
fresh blob, the hypotheses of the amended claim hold and promotion leaves
the surviving track untouched. -/
theorem c1_witness :
    (∀ k, (c1w_tracks k).is_active = (c1w_tracks k).has_updated)
      ∧ (∀ j k : Fin 8, (j : ℕ) ≤ (k : ℕ) → (c1w_tracks k).has_updated = true →
          (c1w_tracks j).has_updated = true)
      ∧ get_num_updated_blobs c1w_tracks + get_num_unassigned_blobs c1w_blobs ≤ 8
      ∧ (add_remaining_blobs_to_tracked 100 c1w_tracks c1w_blobs 42).1 0 = c1w_tracks 0 := by
  refine ⟨by decide, by decide, by decide, ?_⟩
  exact (c1_promotion_amended 100 42 c1w_tracks c1w_blobs (by decide) (by decide)
    (by decide)).1 0 (by decide)

set_option maxRecDepth 10000 in
/-- C1 counterexample: a track that received no match this frame but
survives ageing (`num_dead_frames = 1 < max_dead_frames = 4`) occupies
slot 0 after `sort_tracked_blobs`; since it is not `has_updated`,
`add_remaining_blobs_to_tracked` promotes the fresh blob into slot 0,
overwriting the surviving track — promotion does NOT only use free
slots. -/
theorem c1_counterexample :
    (c1_sorted 0).is_active = true
      ∧ (c1_sorted 0).has_updated = false
      ∧ (c1_sorted 0).num_dead_frames = 1
      ∧ (c1_sorted 0).num_dead_frames < 4
      ∧ (c1_sorted 0).id = 7
      ∧ ((add_remaining_blobs_to_tracked 100 c1_sorted c1_blobs 42).1 0).id = 42
      ∧ (add_remaining_blobs_to_tracked 100 c1_sorted c1_blobs 42).1 0 ≠ c1_sorted 0 := by
  refine ⟨by decide, by decide, by decide, by decide, by decide, by decide, ?_⟩
  intro h
  exact absurd (congrArg TrackedBlob.id h) (by decide)

end NodeMLX
